import Mathlib

/-!
Verification of the RunTime interval-timer core: the GPS track engine
(`src/lib/gps.ts`, class `GPSTracker`), the offline store
(`src/lib/storage.ts`, IndexedDB version 2 with a `sessions` and a
`gps_tracks` object store), the cloud-sync hook
(`src/hooks/useSupabaseSync.ts`, `syncSessions`), and the workout-session
construction sites in the timer screens.

Floating-point numbers of the source are modelled as real numbers; machine
integers and auto-increment keys as `Nat`/`Int`; the values stored in the
local database, which the store only copies and never computes with, as
rationals so that concrete instances stay decidable.  Fix payloads carried
opaquely by the store are a type parameter `P`.
-/

noncomputable section

open Real

/-! ## GPS track engine (`src/lib/gps.ts`) -/

/-- A raw location fix, shape of the `GPSPoint` interface. -/
structure GPSPoint where
  latitude : ℝ
  longitude : ℝ
  timestamp : ℝ
  accuracy : Option ℝ

instance : Inhabited GPSPoint := ⟨⟨0, 0, 0, none⟩⟩

/-- The summary returned by `GPSTracker.stopTracking` (interface `GPSTrack`). -/
structure GPSTrack where
  points : List GPSPoint
  totalDistance : ℝ
  averagePace : ℝ
  maxSpeed : ℝ

/-- JavaScript `Math.atan2`, restricted to real inputs (signed zero does not
exist in `ℝ`, so `atan2 0 0 = 0` covers both zero branches). -/
def atan2 (y x : ℝ) : ℝ :=
  if 0 < x then Real.arctan (y / x)
  else if x < 0 then
    (if 0 ≤ y then Real.arctan (y / x) + Real.pi else Real.arctan (y / x) - Real.pi)
  else
    (if 0 < y then Real.pi / 2 else if y < 0 then -(Real.pi / 2) else 0)

/-- `GPSTracker.haversineDistance`: great-circle distance in meters between
two fixes, Earth radius `6371e3` meters. -/
def haversineDistance (point1 point2 : GPSPoint) : ℝ :=
  let R : ℝ := 6371000
  let phi1 := point1.latitude * Real.pi / 180
  let phi2 := point2.latitude * Real.pi / 180
  let dPhi := (point2.latitude - point1.latitude) * Real.pi / 180
  let dLam := (point2.longitude - point1.longitude) * Real.pi / 180
  let a := Real.sin (dPhi / 2) * Real.sin (dPhi / 2) +
    Real.cos phi1 * Real.cos phi2 * Real.sin (dLam / 2) * Real.sin (dLam / 2)
  let c := 2 * atan2 (Real.sqrt a) (Real.sqrt (1 - a))
  R * c

/-- The summation loop of `GPSTracker.calculateTotalDistance`:
`for (let i = 1; i < points.length; i++) total += haversineDistance(points[i-1], points[i])`. -/
def sumPairwise : List GPSPoint → ℝ
  | [] => 0
  | [_] => 0
  | p :: q :: l => haversineDistance p q + sumPairwise (q :: l)

/-- `GPSTracker.calculateTotalDistance`. -/
def calculateTotalDistance (points : List GPSPoint) : ℝ :=
  if points.length < 2 then 0 else sumPairwise points

/-- Timestamp of `points[points.length - 1]` for the non-empty list `q :: l`. -/
def lastTimestamp (q : GPSPoint) : List GPSPoint → ℝ
  | [] => q.timestamp
  | r :: l => lastTimestamp r l

/-- `GPSTracker.calculateAveragePace`: minutes per km, `0` when fewer than two
fixes or when the total distance is `0`. -/
def calculateAveragePace : List GPSPoint → ℝ
  | p :: q :: l =>
    let totalDistance := calculateTotalDistance (p :: q :: l) / 1000
    let totalTime := (lastTimestamp q l - p.timestamp) / 1000 / 60
    if totalDistance = 0 then 0 else totalTime / totalDistance
  | _ => 0

/-- The accumulator loop of `GPSTracker.calculateMaxSpeed`; a consecutive pair
contributes only when its elapsed time is positive (`if (time > 0)`). -/
def maxSpeedLoop (acc : ℝ) : List GPSPoint → ℝ
  | p :: q :: l =>
    let distance := haversineDistance p q / 1000
    let time := (q.timestamp - p.timestamp) / 1000 / 3600
    maxSpeedLoop (if 0 < time then max acc (distance / time) else acc) (q :: l)
  | _ => acc

/-- `GPSTracker.calculateMaxSpeed`: km/h, `0` when fewer than two fixes. -/
def calculateMaxSpeed (points : List GPSPoint) : ℝ :=
  if points.length < 2 then 0 else maxSpeedLoop 0 points

/-- Mutable state of a `GPSTracker` instance. -/
structure TrackerState where
  watchId : Option ℕ
  points : List GPSPoint
  isTracking : Bool

/-- `GPSTracker.stopTracking`: clears the watch, recomputes the statistics
from the accumulated points (which are NOT cleared) and returns the summary. -/
def stopTracking (ts : TrackerState) : TrackerState × GPSTrack :=
  ({ ts with watchId := none, isTracking := false },
   { points := ts.points
     totalDistance := calculateTotalDistance ts.points
     averagePace := calculateAveragePace ts.points
     maxSpeed := calculateMaxSpeed ts.points })

/-- The state effect of `GPSTracker.startTracking`: a no-op when already
tracking, otherwise the point buffer is reset and a new watch is installed. -/
def startTracking (ts : TrackerState) (newWatchId : ℕ) : TrackerState :=
  if ts.isTracking then ts
  else { watchId := some newWatchId, points := [], isTracking := true }

end

/-! ## Offline store (`src/lib/storage.ts`, IndexedDB version 2)

The store holds two object stores: `sessions` (keyPath `id`,
auto-increment) and `gps_tracks` (keyPath `sessionId`).  GPS point payloads
are opaque to the store, hence the type parameter `P`.  Numeric session
fields are floats in the source; the store only copies them, so they are
modelled as rationals to keep concrete databases decidable. -/

/-- The session argument of `saveSession` (a `WorkoutSession` without `id`
and without `synced`, see `Omit<WorkoutSession, 'id'>` in `supabase.ts`). -/
structure SessionInput where
  run_time : ℚ
  walk_time : ℚ
  rounds : ℚ
  total_duration : ℚ
  total_run_time : ℚ
  total_walk_time : ℚ
  distance : Option ℚ
  average_pace : Option ℚ
  max_speed : Option ℚ
  date : String
deriving DecidableEq, Repr

/-- A record of the `sessions` object store: the input plus the assigned
auto-increment `id`, the defaulted `distance` and the `synced` flag. -/
structure SessionRec where
  id : ℕ
  run_time : ℚ
  walk_time : ℚ
  rounds : ℚ
  total_duration : ℚ
  total_run_time : ℚ
  total_walk_time : ℚ
  distance : ℚ
  average_pace : Option ℚ
  max_speed : Option ℚ
  date : String
  synced : ℕ
deriving DecidableEq, Repr

/-- A record of the `gps_tracks` object store. -/
structure GpsRec (P : Type) where
  sessionId : ℕ
  points : List P
  createdAt : String
deriving DecidableEq, Repr

/-- The local database: the auto-increment key generator of `sessions` and
the contents of the two object stores. -/
structure LocalDB (P : Type) where
  nextId : ℕ
  sessions : List SessionRec
  gpsTracks : List (GpsRec P)
deriving DecidableEq, Repr

variable {P : Type}

/-- The record written by `saveSession`:
`{ ...session, distance: session.distance ?? 0, synced: 0 }` with the
auto-increment key `id` assigned by the `sessions` store. -/
def mkSessionRec (s : SessionInput) (id : ℕ) : SessionRec :=
  { id := id
    run_time := s.run_time
    walk_time := s.walk_time
    rounds := s.rounds
    total_duration := s.total_duration
    total_run_time := s.total_run_time
    total_walk_time := s.total_walk_time
    distance := s.distance.getD 0
    average_pace := s.average_pace
    max_speed := s.max_speed
    date := s.date
    synced := 0 }

/-- Injected failure point for the `saveSession` transaction: IndexedDB
aborts and rolls back the whole transaction when any request in it fails
before `tx.done`. -/
inductive SaveFailure where
  | noFailure
  | afterSessionWrite
deriving DecidableEq, Repr

/-- `saveSession(session, gpsPoints?)`: one readwrite transaction over both
object stores; adds the session record, then — only when `gpsPoints` is
present and non-empty — the GPS record keyed by the new session id.
`SaveFailure.afterSessionWrite` models a request failure between the two
writes: the transaction aborts and nothing is committed. -/
def saveSession (fail : SaveFailure) (session : SessionInput)
    (gpsPoints : Option (List P)) (now : String) (db : LocalDB P) :
    Except Unit (ℕ × LocalDB P) :=
  let sessionId := db.nextId
  let draft : LocalDB P :=
    { db with nextId := db.nextId + 1
              sessions := db.sessions ++ [mkSessionRec session sessionId] }
  match fail with
  | .afterSessionWrite => .error ()
  | .noFailure =>
    let draft :=
      match gpsPoints with
      | some pts =>
        if 0 < pts.length then
          { draft with gpsTracks :=
              draft.gpsTracks ++ [⟨sessionId, pts, now⟩] }
        else draft
      | none => draft
    .ok (sessionId, draft)

/-- The durable state after a `saveSession` call: the committed draft on
success, the unchanged database when the transaction aborted. -/
def saveSessionPersisted (fail : SaveFailure) (session : SessionInput)
    (gpsPoints : Option (List P)) (now : String) (db : LocalDB P) : LocalDB P :=
  match saveSession fail session gpsPoints now db with
  | .ok (_, db') => db'
  | .error _ => db

/-- `getSessions()`. -/
def getSessions (db : LocalDB P) : List SessionRec :=
  db.sessions

/-- `getUnsyncedSessions()`: the `synced` index queried with key `0`. -/
def getUnsyncedSessions (db : LocalDB P) : List SessionRec :=
  db.sessions.filter (fun s => s.synced == 0)

/-- IndexedDB `put` on the `sessions` store: replaces the record with the
same key when one exists, inserts otherwise. -/
def putSession (db : LocalDB P) (r : SessionRec) : LocalDB P :=
  if db.sessions.any (fun t => t.id == r.id) then
    { db with sessions := db.sessions.map (fun t => if t.id == r.id then r else t) }
  else
    { db with sessions := db.sessions ++ [r] }

/-- One iteration of the `markSessionsSynced` loop: `get` the record with
the given id and, when found, `put` it back with `synced = 1`. -/
def markOneSynced (db : LocalDB P) (id : ℕ) : LocalDB P :=
  match db.sessions.find? (fun t => t.id == id) with
  | some s => putSession db { s with synced := 1 }
  | none => db

/-- `markSessionsSynced(sessionIds)`. -/
def markSessionsSynced (sessionIds : List ℕ) (db : LocalDB P) : LocalDB P :=
  sessionIds.foldl markOneSynced db

/-- `clearSessions()`: clears both object stores in one transaction (the
key generator of a cleared store is not reset). -/
def clearSessions (db : LocalDB P) : LocalDB P :=
  { db with sessions := [], gpsTracks := [] }

/-- `getAllSessionsWithGPS()`: every session paired with the points of its
GPS record, when one exists. -/
def getAllSessionsWithGPS (db : LocalDB P) : List (SessionRec × Option (List P)) :=
  db.sessions.map (fun s =>
    (s, (db.gpsTracks.find? (fun g => g.sessionId == s.id)).map (fun g => g.points)))

/-! ## Cloud sync (`src/hooks/useSupabaseSync.ts`, `syncSessions`) -/

/-- Outcomes of the two remote `insert` calls: the supabase client resolves
with an `error` field instead of throwing. -/
structure SyncEnv where
  sessionInsertFails : Bool
  gpsInsertFails : Bool
deriving DecidableEq, Repr

/-- Result of a `syncSessions()` call: the resolved boolean, the local
database afterwards, and how many remote insert calls were issued to the
`workout_sessions` and `gps_tracks` tables. -/
structure SyncOutcome (P : Type) where
  returned : Bool
  db : LocalDB P
  sessionInsertCalls : ℕ
  gpsInsertCalls : ℕ
deriving DecidableEq, Repr

/-- The inner `syncPromise` of `syncSessions`: reads all sessions, filters
the unsynced ones, succeeds trivially when there are none, bulk-inserts the
session rows (returning `false` on a remote error, leaving the store
untouched), then attempts the GPS insert — whose error is logged and
ignored — and finally clears the local store and resolves `true`. -/
def syncPromiseRun (env : SyncEnv) (db : LocalDB P) : SyncOutcome P :=
  let allSessionsWithGPS := getAllSessionsWithGPS db
  let unsyncedSessions := allSessionsWithGPS.filter (fun sg => sg.1.synced == 0)
  if unsyncedSessions.length = 0 then
    ⟨true, db, 0, 0⟩
  else if env.sessionInsertFails then
    ⟨false, db, 1, 0⟩
  else
    let gpsTracksToUpload := unsyncedSessions.filter (fun sg =>
      match sg.2 with
      | some pts => decide (0 < pts.length)
      | none => false)
    let gpsCalls := if 0 < gpsTracksToUpload.length then 1 else 0
    ⟨true, clearSessions db, 1, gpsCalls⟩

/-- `syncSessions()`: returns `false` immediately when offline; otherwise it
runs the sync promise and — because the source discards the value of
`Promise.race([syncPromise, syncTimeout])` and executes a literal
`return true` — resolves `true` whenever the promise resolves, whatever
boolean the promise produced.  The `isSyncing` flag is set around the body
for UI display but is never consulted by any guard. -/
def syncSessions (isOnline isSyncing : Bool) (env : SyncEnv) (db : LocalDB P) :
    SyncOutcome P :=
  if isOnline = false then ⟨false, db, 0, 0⟩
  else
    let r := syncPromiseRun env db
    ⟨true, r.db, r.sessionInsertCalls, r.gpsInsertCalls⟩

/-! ## Workout-session construction (`TimerScreen` components)

The three places that build the session object handed to `onFinish` /
`onComplete`: the completion branch of `switchToNextPhase` and the
`stopWorkout` handler of the GPS-enabled `TimerScreen`, and the
`handleComplete` handler of the plain `TimerScreen`.  Times are whole
seconds, modelled as integers. -/

/-- The timer configuration (`TimerConfig`). -/
structure TimerConfig where
  runTime : ℤ
  walkTime : ℤ
  rounds : ℤ

/-- The phases of the GPS-enabled timer screen. -/
inductive Phase where
  | run
  | walk
  | countdown
deriving DecidableEq, Repr

/-- The session object passed to `onFinish` / `onComplete`. -/
structure FinishedSession where
  runTime : ℤ
  walkTime : ℤ
  rounds : ℤ
  completedRounds : Option ℤ
  totalDuration : ℤ
  totalRunTime : ℤ
  totalWalkTime : ℤ
  distance : ℝ
  gpsPoints : Option (List GPSPoint)
  averagePace : Option ℝ
  maxSpeed : Option ℝ

noncomputable section

/-- JavaScript `a || b` on numbers: `b` when `a` is falsy (`0` is the only
falsy real; `NaN` does not exist in `ℝ`). -/
def jsOr (a b : ℝ) : ℝ :=
  if a = 0 then b else a

/-- `const finalDistance = gpsTrack?.totalDistance || distance || 0`. -/
def finalDistance (gpsTrack : Option GPSTrack) (distance : ℝ) : ℝ :=
  match gpsTrack with
  | some t => jsOr t.totalDistance (jsOr distance 0)
  | none => jsOr distance 0

/-- The session built by the workout-completion branch of
`switchToNextPhase` in the GPS-enabled `TimerScreen`. -/
def completedSession (config : TimerConfig) (gpsTrack : Option GPSTrack)
    (distance : ℝ) (runTimeSpent walkTimeSpent : ℤ) : FinishedSession :=
  { runTime := config.runTime
    walkTime := config.walkTime
    rounds := config.rounds
    completedRounds := none
    totalDuration := runTimeSpent + walkTimeSpent
    totalRunTime := runTimeSpent
    totalWalkTime := walkTimeSpent
    distance := finalDistance gpsTrack distance
    gpsPoints := gpsTrack.map (fun t => t.points)
    averagePace := gpsTrack.map (fun t => t.averagePace)
    maxSpeed := gpsTrack.map (fun t => t.maxSpeed) }

/-- The session built by the `stopWorkout` handler (explicit stop) of the
GPS-enabled `TimerScreen`. -/
def stopWorkoutSession (config : TimerConfig) (isFreeRounds : Bool)
    (currentPhase : Phase) (currentRound : ℤ) (gpsTrack : Option GPSTrack)
    (distance : ℝ) (runTimeSpent walkTimeSpent : ℤ) : FinishedSession :=
  let roundsValue :=
    if isFreeRounds then
      (if currentPhase = Phase.run ∨ currentPhase = Phase.countdown then
        currentRound - 1 else currentRound)
    else config.rounds
  { runTime := config.runTime
    walkTime := config.walkTime
    rounds := roundsValue
    completedRounds := if isFreeRounds then some
      (if currentPhase = Phase.run ∨ currentPhase = Phase.countdown then
        currentRound - 1 else currentRound) else none
    totalDuration := runTimeSpent + walkTimeSpent
    totalRunTime := runTimeSpent
    totalWalkTime := walkTimeSpent
    distance := finalDistance gpsTrack distance
    gpsPoints := gpsTrack.map (fun t => t.points)
    averagePace := gpsTrack.map (fun t => t.averagePace)
    maxSpeed := gpsTrack.map (fun t => t.maxSpeed) }

/-- The session built by `handleComplete` in the plain `TimerScreen`
(`isFreeRounds` is `rounds <= 0` there; distance `0`, empty GPS points). -/
def handleCompleteSession (runTime walkTime rounds currentRound : ℤ)
    (totalRunTime totalWalkTime : ℤ) : FinishedSession :=
  let isFreeRounds := rounds ≤ 0
  { runTime := runTime
    walkTime := walkTime
    rounds := if isFreeRounds then currentRound - 1 else rounds
    completedRounds := some (currentRound - 1)
    totalDuration := totalRunTime + totalWalkTime
    totalRunTime := totalRunTime
    totalWalkTime := totalWalkTime
    distance := 0
    gpsPoints := some []
    averagePace := none
    maxSpeed := none }

end

/-! ## Theorems -/

/-- C10: calling `saveSession` with an empty GPS point array stores exactly
the session record — with `synced = 0` and `distance` defaulted to `0` when
absent — and creates no GPS record. -/
theorem saveSession_empty_points_no_gps_record (P : Type) (s : SessionInput)
    (db : LocalDB P) (now : String) :
    saveSession .noFailure s (some []) now db =
      .ok (db.nextId,
        { nextId := db.nextId + 1
          sessions := db.sessions ++ [mkSessionRec s db.nextId]
          gpsTracks := db.gpsTracks }) ∧
    (mkSessionRec s db.nextId).synced = 0 ∧
    (mkSessionRec s db.nextId).distance = s.distance.getD 0 :=
  ⟨rfl, rfl, rfl⟩

/-- C3: `saveSession` with non-empty GPS points writes exactly one session
record (with `synced = 0`, keyed by the returned identifier `db.nextId`) and
exactly one GPS record in one transaction; a failure injected after the
session write but before the GPS write aborts the transaction and leaves
the persisted store unchanged. -/
theorem saveSession_atomic (P : Type) (s : SessionInput) (pts : List P)
    (hpts : pts ≠ []) (db : LocalDB P) (now : String) :
    saveSession .noFailure s (some pts) now db =
      .ok (db.nextId,
        { nextId := db.nextId + 1
          sessions := db.sessions ++ [mkSessionRec s db.nextId]
          gpsTracks := db.gpsTracks ++ [⟨db.nextId, pts, now⟩] }) ∧
    (mkSessionRec s db.nextId).synced = 0 ∧
    saveSession .afterSessionWrite s (some pts) now db = .error () ∧
    saveSessionPersisted .afterSessionWrite s (some pts) now db = db := by
  refine ⟨?_, rfl, rfl, rfl⟩
  simp [saveSession, List.length_pos.mpr hpts]

/-- Witness for C3 at a concrete store and a one-point track. -/
theorem saveSession_atomic_witness :
    ([7] : List ℕ) ≠ [] ∧
    (saveSession .noFailure ⟨30, 90, 8, 120, 30, 90, some 100, none, none, "2025-01-01"⟩
        (some [7]) "t0" (⟨1, [], []⟩ : LocalDB ℕ) =
      .ok (1,
        { nextId := 2
          sessions := [] ++ [mkSessionRec ⟨30, 90, 8, 120, 30, 90, some 100, none, none,
            "2025-01-01"⟩ 1]
          gpsTracks := [] ++ [⟨1, [7], "t0"⟩] }) ∧
    (mkSessionRec ⟨30, 90, 8, 120, 30, 90, some 100, none, none, "2025-01-01"⟩ 1).synced = 0 ∧
    saveSession .afterSessionWrite ⟨30, 90, 8, 120, 30, 90, some 100, none, none, "2025-01-01"⟩
        (some [7]) "t0" (⟨1, [], []⟩ : LocalDB ℕ) = .error () ∧
    saveSessionPersisted .afterSessionWrite
        ⟨30, 90, 8, 120, 30, 90, some 100, none, none, "2025-01-01"⟩
        (some [7]) "t0" (⟨1, [], []⟩ : LocalDB ℕ) = ⟨1, [], []⟩) :=
  ⟨by decide, saveSession_atomic ℕ _ [7] (by decide) _ "t0"⟩

/-- C8: after `markSessionsSynced([id])` for an identifier present in the
store, `getUnsyncedSessions()` contains no session with that identifier. -/
theorem markSynced_excludes_id (P : Type) (db : LocalDB P) (id : ℕ)
    (hmem : ∃ s ∈ db.sessions, s.id = id) :
    ∀ s ∈ getUnsyncedSessions (markSessionsSynced [id] db), s.id ≠ id := by
  intro s hs hsid
  rw [show markSessionsSynced [id] db = markOneSynced db id from rfl,
    getUnsyncedSessions, List.mem_filter] at hs
  obtain ⟨hmem', hsync⟩ := hs
  cases hfind : db.sessions.find? (fun t => t.id == id) with
  | none =>
    rw [show markOneSynced db id = db by unfold markOneSynced; rw [hfind]] at hmem'
    have := List.find?_eq_none.mp hfind s hmem'
    simp [hsid] at this
  | some s0 =>
    rw [show markOneSynced db id = putSession db { s0 with synced := 1 } by
      unfold markOneSynced; rw [hfind]] at hmem'
    have hs0id : s0.id = id := by simpa using List.find?_some hfind
    have hs0mem : s0 ∈ db.sessions := List.mem_of_find?_eq_some hfind
    unfold putSession at hmem'
    rw [if_pos (List.any_eq_true.mpr ⟨s0, hs0mem, by simp⟩)] at hmem'
    simp only [List.mem_map] at hmem'
    obtain ⟨t, _, hteq⟩ := hmem'
    by_cases hti : (t.id == ({ s0 with synced := 1 } : SessionRec).id) = true
    · rw [if_pos hti] at hteq
      rw [← hteq] at hsync
      simp at hsync
    · rw [if_neg hti] at hteq
      apply hti
      rw [hteq]
      simp [hsid, hs0id]

/-- Witness for C8 at a concrete one-session store. -/
theorem markSynced_excludes_id_witness :
    (∃ s ∈ (⟨2, [⟨1, 30, 90, 8, 120, 30, 90, 0, none, none, "d1", 0⟩], []⟩ :
        LocalDB ℕ).sessions, s.id = 1) ∧
    ∀ s ∈ getUnsyncedSessions (markSessionsSynced [1]
        (⟨2, [⟨1, 30, 90, 8, 120, 30, 90, 0, none, none, "d1", 0⟩], []⟩ : LocalDB ℕ)),
      s.id ≠ 1 :=
  ⟨⟨⟨1, 30, 90, 8, 120, 30, 90, 0, none, none, "d1", 0⟩, by decide, rfl⟩,
   markSynced_excludes_id ℕ _ 1 ⟨⟨1, 30, 90, 8, 120, 30, 90, 0, none, none, "d1", 0⟩,
     by decide, rfl⟩⟩

/-- C1 counterexample: with the store `Syncing` (`isSyncing = true`), online,
and one unsynced session present, a further `syncSessions()` call is NOT a
no-op — it issues a session upload and mutates the local store, because the
code's only early return is the offline check. -/
theorem syncSessions_reentrant_counterexample :
    ¬((syncSessions true true ⟨false, false⟩
        (⟨2, [⟨1, 30, 90, 8, 120, 30, 90, 0, none, none, "d2", 0⟩], []⟩ :
          LocalDB ℕ)).sessionInsertCalls = 0 ∧
      (syncSessions true true ⟨false, false⟩
        (⟨2, [⟨1, 30, 90, 8, 120, 30, 90, 0, none, none, "d2", 0⟩], []⟩ :
          LocalDB ℕ)).db =
        ⟨2, [⟨1, 30, 90, 8, 120, 30, 90, 0, none, none, "d2", 0⟩], []⟩) := by
  decide

/-- C1 amended: `syncSessions()` has no re-entrancy guard — its behaviour is
independent of the `isSyncing` flag, which is set only for UI display, so a
re-entrant call while a sync is in flight runs the full sync path again; the
only immediate no-op return is the offline check, which returns `false`
without touching the store or the network. -/
theorem syncSessions_only_offline_guard (P : Type) (env : SyncEnv)
    (db : LocalDB P) (b1 b2 : Bool) :
    syncSessions true b1 env db = syncSessions true b2 env db ∧
    syncSessions false b1 env db = ⟨false, db, 0, 0⟩ :=
  ⟨rfl, rfl⟩

/-- C2: evaluation at the failing input — online, not syncing, one unsynced
session, remote session insert fails.  The whole sync is aborted (no GPS
insert), the local store is untouched and the session is still unsynced,
but `syncSessions()` resolves `true`, not `false`: the code discards the
value of `Promise.race([syncPromise, syncTimeout])` and executes a literal
`return true`, so the inner `return false` on the upload error is lost. -/
theorem syncSessions_session_upload_failure_eval :
    (syncSessions true false ⟨true, false⟩
      (⟨2, [⟨1, 30, 90, 8, 120, 30, 90, 0, none, none, "d3", 0⟩], []⟩ :
        LocalDB ℕ)).returned = true ∧
    (syncSessions true false ⟨true, false⟩
      (⟨2, [⟨1, 30, 90, 8, 120, 30, 90, 0, none, none, "d3", 0⟩], []⟩ :
        LocalDB ℕ)).db =
      ⟨2, [⟨1, 30, 90, 8, 120, 30, 90, 0, none, none, "d3", 0⟩], []⟩ ∧
    getUnsyncedSessions (syncSessions true false ⟨true, false⟩
      (⟨2, [⟨1, 30, 90, 8, 120, 30, 90, 0, none, none, "d3", 0⟩], []⟩ :
        LocalDB ℕ)).db =
      [⟨1, 30, 90, 8, 120, 30, 90, 0, none, none, "d3", 0⟩] ∧
    (syncSessions true false ⟨true, false⟩
      (⟨2, [⟨1, 30, 90, 8, 120, 30, 90, 0, none, none, "d3", 0⟩], []⟩ :
        LocalDB ℕ)).gpsInsertCalls = 0 := by
  decide

/-- C4: when the remote session insert succeeds but the GPS insert fails,
`syncSessions()` still reports success and clears both local tables. -/
theorem syncSessions_gps_failure_still_success (P : Type) (b : Bool)
    (db : LocalDB P)
    (h : (getAllSessionsWithGPS db).filter (fun sg => sg.1.synced == 0) ≠ []) :
    (syncSessions true b ⟨false, true⟩ db).returned = true ∧
    (syncSessions true b ⟨false, true⟩ db).db.sessions = [] ∧
    (syncSessions true b ⟨false, true⟩ db).db.gpsTracks = [] := by
  simp [syncSessions, syncPromiseRun, clearSessions, List.length_eq_zero, h]

/-- Witness for C4 at a concrete one-session store. -/
theorem syncSessions_gps_failure_still_success_witness :
    (getAllSessionsWithGPS (⟨2, [⟨1, 30, 90, 8, 120, 30, 90, 0, none, none, "d4", 0⟩],
        [⟨1, [7], "t4"⟩]⟩ : LocalDB ℕ)).filter (fun sg => sg.1.synced == 0) ≠ [] ∧
    ((syncSessions true false ⟨false, true⟩
        (⟨2, [⟨1, 30, 90, 8, 120, 30, 90, 0, none, none, "d4", 0⟩],
          [⟨1, [7], "t4"⟩]⟩ : LocalDB ℕ)).returned = true ∧
     (syncSessions true false ⟨false, true⟩
        (⟨2, [⟨1, 30, 90, 8, 120, 30, 90, 0, none, none, "d4", 0⟩],
          [⟨1, [7], "t4"⟩]⟩ : LocalDB ℕ)).db.sessions = [] ∧
     (syncSessions true false ⟨false, true⟩
        (⟨2, [⟨1, 30, 90, 8, 120, 30, 90, 0, none, none, "d4", 0⟩],
          [⟨1, [7], "t4"⟩]⟩ : LocalDB ℕ)).db.gpsTracks = []) :=
  ⟨by decide, syncSessions_gps_failure_still_success ℕ false _ (by decide)⟩

/-- C9: every session record produced at workout completion (both timer
screens) or explicit stop satisfies
`totalRunTime + totalWalkTime = totalDuration`. -/
theorem finished_session_time_invariant (config : TimerConfig)
    (gpsTrack : Option GPSTrack) (distance : ℝ)
    (runTimeSpent walkTimeSpent : ℤ) (isFreeRounds : Bool)
    (currentPhase : Phase) (currentRound : ℤ)
    (runTime walkTime rounds currentRound' totalRunTime totalWalkTime : ℤ) :
    (completedSession config gpsTrack distance runTimeSpent
        walkTimeSpent).totalRunTime +
      (completedSession config gpsTrack distance runTimeSpent
        walkTimeSpent).totalWalkTime =
      (completedSession config gpsTrack distance runTimeSpent
        walkTimeSpent).totalDuration ∧
    (stopWorkoutSession config isFreeRounds currentPhase currentRound gpsTrack
        distance runTimeSpent walkTimeSpent).totalRunTime +
      (stopWorkoutSession config isFreeRounds currentPhase currentRound gpsTrack
        distance runTimeSpent walkTimeSpent).totalWalkTime =
      (stopWorkoutSession config isFreeRounds currentPhase currentRound gpsTrack
        distance runTimeSpent walkTimeSpent).totalDuration ∧
    (handleCompleteSession runTime walkTime rounds currentRound' totalRunTime
        totalWalkTime).totalRunTime +
      (handleCompleteSession runTime walkTime rounds currentRound' totalRunTime
        totalWalkTime).totalWalkTime =
      (handleCompleteSession runTime walkTime rounds currentRound' totalRunTime
        totalWalkTime).totalDuration :=
  ⟨rfl, rfl, rfl⟩

/-- C5 counterexample: stopping a tracker that recorded one fix and then
calling `stopTracking` again with no intervening `startTracking` does NOT
return an empty summary: the point buffer is never cleared by
`stopTracking`, so the second call returns the same non-empty points. -/
theorem stopTracking_repeat_counterexample :
    (stopTracking (stopTracking ⟨some 1, [⟨0, 0, 0, none⟩], true⟩).1).2.points ≠ [] := by
  simp [stopTracking]

/-- C5 amended: `stopTracking` returns the empty summary (distance `0`,
empty points, pace `0`, max speed `0`) exactly when the accumulated track is
empty — in particular before any fix has arrived; a repeated `stopTracking`
with no intervening `startTracking` returns the SAME summary as the
previous call, because the points are retained until `startTracking` resets
them. -/
theorem stopTracking_empty_and_idempotent (ts : TrackerState) :
    (ts.points = [] → (stopTracking ts).2 = ⟨[], 0, 0, 0⟩) ∧
    (stopTracking (stopTracking ts).1).2 = (stopTracking ts).2 ∧
    (stopTracking ts).1.points = ts.points := by
  refine ⟨fun h => ?_, rfl, rfl⟩
  simp only [stopTracking, h]
  rfl

/-- Witness for C5 at the tracker state before any fix. -/
theorem stopTracking_empty_and_idempotent_witness :
    (⟨none, [], false⟩ : TrackerState).points = [] ∧
    (stopTracking ⟨none, [], false⟩).2 = ⟨[], 0, 0, 0⟩ :=
  ⟨rfl, (stopTracking_empty_and_idempotent ⟨none, [], false⟩).1 rfl⟩

/-- `Math.atan2` is non-negative on the first quadrant (both arguments
non-negative), the only region the haversine computation feeds it. -/
theorem atan2_nonneg {y x : ℝ} (hy : 0 ≤ y) (hx : 0 ≤ x) : 0 ≤ atan2 y x := by
  unfold atan2
  rcases lt_or_eq_of_le hx with hx' | hx'
  · rw [if_pos hx']
    have h := Real.arctan_strictMono.monotone (div_nonneg hy hx'.le)
    rwa [Real.arctan_zero] at h
  · rw [if_neg (by rw [← hx']; exact lt_irrefl 0),
      if_neg (by rw [← hx']; exact lt_irrefl 0)]
    rcases lt_or_eq_of_le hy with hy' | hy'
    · rw [if_pos hy']
      positivity
    · rw [if_neg (by rw [← hy']; exact lt_irrefl 0),
        if_neg (by rw [← hy']; exact lt_irrefl 0)]

/-- The scaled `atan2`-of-square-roots core of the haversine formula is
non-negative whatever its argument. -/
theorem haversine_core_nonneg (a : ℝ) :
    0 ≤ 6371000 * (2 * atan2 (Real.sqrt a) (Real.sqrt (1 - a))) := by
  have h := atan2_nonneg (Real.sqrt_nonneg a) (Real.sqrt_nonneg (1 - a))
  nlinarith

/-- The haversine distance between any two fixes is non-negative. -/
theorem haversineDistance_nonneg (p q : GPSPoint) :
    0 ≤ haversineDistance p q := by
  simp only [haversineDistance]
  exact haversine_core_nonneg _

/-- The pairwise-sum loop of the distance computation is non-negative. -/
theorem sumPairwise_nonneg : ∀ l : List GPSPoint, 0 ≤ sumPairwise l := by
  intro l
  induction l with
  | nil => exact le_refl 0
  | cons p t ih =>
    cases t with
    | nil => exact le_refl 0
    | cons q l' =>
      have h1 := haversineDistance_nonneg p q
      have h2 : (0 : ℝ) ≤ sumPairwise (q :: l') := ih
      simpa [sumPairwise] using add_nonneg h1 h2

/-- The total track distance is non-negative. -/
theorem calculateTotalDistance_nonneg (l : List GPSPoint) :
    0 ≤ calculateTotalDistance l := by
  unfold calculateTotalDistance
  split
  · exact le_refl 0
  · exact sumPairwise_nonneg l

/-- With non-decreasing timestamps, the timestamp of the last fix is at
least the timestamp of the first. -/
theorem le_lastTimestamp : ∀ (l : List GPSPoint) (q : GPSPoint),
    List.Chain' (fun a b => a.timestamp ≤ b.timestamp) (q :: l) →
    q.timestamp ≤ lastTimestamp q l := by
  intro l
  induction l with
  | nil => intro q _; exact le_refl _
  | cons r l' ih =>
    intro q h
    rw [List.chain'_cons] at h
    exact le_trans h.1 (ih r h.2)

/-- The max-speed loop never drops below its (non-negative) accumulator. -/
theorem maxSpeedLoop_nonneg : ∀ (l : List GPSPoint) (acc : ℝ), 0 ≤ acc →
    0 ≤ maxSpeedLoop acc l := by
  intro l
  induction l with
  | nil => intro acc h; exact h
  | cons p t ih =>
    intro acc h
    cases t with
    | nil => exact h
    | cons q l' =>
      refine ih _ ?_
      split
      · exact le_trans h (le_max_left _ _)
      · exact h

/-- Pairs with zero (or negative) elapsed time never contribute to the
max-speed loop: with all timestamps equal it returns its accumulator. -/
theorem maxSpeedLoop_all_eq : ∀ (l : List GPSPoint) (acc : ℝ),
    List.Chain' (fun a b => a.timestamp = b.timestamp) l →
    maxSpeedLoop acc l = acc := by
  intro l
  induction l with
  | nil => intro acc _; rfl
  | cons p t ih =>
    intro acc h
    cases t with
    | nil => rfl
    | cons q l' =>
      rw [List.chain'_cons] at h
      have ht : (q.timestamp - p.timestamp) / 1000 / 3600 = 0 := by
        rw [h.1, sub_self, zero_div, zero_div]
      show maxSpeedLoop
        (if 0 < (q.timestamp - p.timestamp) / 1000 / 3600 then
          max acc (haversineDistance p q / 1000 /
            ((q.timestamp - p.timestamp) / 1000 / 3600))
         else acc) (q :: l') = acc
      rw [ht, if_neg (lt_irrefl 0)]
      exact ih acc h.2

/-- C6: for every fix sequence with non-decreasing timestamps (duplicates
allowed) the average pace and max speed are non-negative; the average pace
is `0` whenever the total distance is `0` (its division is guarded), and a
sequence whose consecutive pairs all have zero elapsed time yields max
speed `0` — zero-time pairs are skipped, never divided by. -/
theorem pace_speed_nonneg_total (pts : List GPSPoint)
    (h : List.Chain' (fun a b => a.timestamp ≤ b.timestamp) pts) :
    0 ≤ calculateAveragePace pts ∧ 0 ≤ calculateMaxSpeed pts ∧
    (calculateTotalDistance pts = 0 → calculateAveragePace pts = 0) ∧
    (List.Chain' (fun a b => a.timestamp = b.timestamp) pts →
      calculateMaxSpeed pts = 0) := by
  refine ⟨?_, ?_, ?_, ?_⟩
  · match pts, h with
    | [], _ => exact le_refl 0
    | [p], _ => exact le_refl 0
    | p :: q :: l, h =>
      show 0 ≤ (if calculateTotalDistance (p :: q :: l) / 1000 = 0 then 0
        else ((lastTimestamp q l - p.timestamp) / 1000 / 60) /
          (calculateTotalDistance (p :: q :: l) / 1000))
      split
      · exact le_refl 0
      · rename_i hd
        have hd0 : 0 ≤ calculateTotalDistance (p :: q :: l) / 1000 :=
          div_nonneg (calculateTotalDistance_nonneg _) (by norm_num)
        have hts : p.timestamp ≤ lastTimestamp q l := by
          rw [List.chain'_cons] at h
          exact le_trans h.1 (le_lastTimestamp l q h.2)
        exact div_nonneg (div_nonneg (div_nonneg (sub_nonneg.mpr hts)
          (by norm_num)) (by norm_num)) hd0
  · unfold calculateMaxSpeed
    split
    · exact le_refl 0
    · exact maxSpeedLoop_nonneg pts 0 (le_refl 0)
  · intro h0
    match pts with
    | [] => rfl
    | [p] => rfl
    | p :: q :: l =>
      show (if calculateTotalDistance (p :: q :: l) / 1000 = 0 then (0 : ℝ)
        else ((lastTimestamp q l - p.timestamp) / 1000 / 60) /
          (calculateTotalDistance (p :: q :: l) / 1000)) = 0
      rw [if_pos (by rw [h0, zero_div])]
  · intro heq
    unfold calculateMaxSpeed
    split
    · rfl
    · exact maxSpeedLoop_all_eq pts 0 heq

/-- Witness for C6 on a two-fix sequence with duplicate timestamps. -/
theorem pace_speed_nonneg_total_witness :
    List.Chain' (fun a b => a.timestamp ≤ b.timestamp)
      [(⟨0, 0, 0, none⟩ : GPSPoint), ⟨0, 1, 0, none⟩] ∧
    (0 ≤ calculateAveragePace [(⟨0, 0, 0, none⟩ : GPSPoint), ⟨0, 1, 0, none⟩] ∧
     0 ≤ calculateMaxSpeed [(⟨0, 0, 0, none⟩ : GPSPoint), ⟨0, 1, 0, none⟩] ∧
     (calculateTotalDistance [(⟨0, 0, 0, none⟩ : GPSPoint), ⟨0, 1, 0, none⟩] = 0 →
       calculateAveragePace [(⟨0, 0, 0, none⟩ : GPSPoint), ⟨0, 1, 0, none⟩] = 0) ∧
     (List.Chain' (fun a b => a.timestamp = b.timestamp)
        [(⟨0, 0, 0, none⟩ : GPSPoint), ⟨0, 1, 0, none⟩] →
       calculateMaxSpeed [(⟨0, 0, 0, none⟩ : GPSPoint), ⟨0, 1, 0, none⟩] = 0)) := by
  have hw : List.Chain' (fun a b => a.timestamp ≤ b.timestamp)
      [(⟨0, 0, 0, none⟩ : GPSPoint), ⟨0, 1, 0, none⟩] := by
    simp [List.chain'_cons]
  exact ⟨hw, pace_speed_nonneg_total _ hw⟩

/-- The distance loop equals the sum of haversine distances over the zipped
consecutive pairs of the track. -/
theorem sumPairwise_eq_zip_sum : ∀ l : List GPSPoint,
    sumPairwise l =
      ((l.zip l.tail).map (fun pq => haversineDistance pq.1 pq.2)).sum := by
  intro l
  induction l with
  | nil => rfl
  | cons p t ih =>
    cases t with
    | nil => rfl
    | cons q l' =>
      show haversineDistance p q + sumPairwise (q :: l') = _
      rw [ih]
      simp

/-- The haversine distance between two fixes at the same coordinates is `0`. -/
theorem haversineDistance_self (p q : GPSPoint)
    (hlat : p.latitude = q.latitude) (hlng : p.longitude = q.longitude) :
    haversineDistance p q = 0 := by
  simp only [haversineDistance, hlat, hlng, sub_self, zero_mul, zero_div,
    Real.sin_zero, mul_zero, zero_add, add_zero, Real.sqrt_zero, sub_zero,
    Real.sqrt_one]
  rw [atan2, if_pos (by norm_num : (0 : ℝ) < 1)]
  simp [Real.arctan_zero]

/-- Exact value of the haversine distance between two equatorial fixes one
degree of longitude apart. -/
theorem haversineDistance_equator :
    haversineDistance ⟨0, 0, 0, none⟩ ⟨0, 1, 0, none⟩ =
      6371000 * (2 * (Real.pi / 360)) := by
  have hx0 : (0 : ℝ) ≤ Real.pi / 360 := by positivity
  have hxpi : Real.pi / 360 ≤ Real.pi := by nlinarith [Real.pi_pos]
  have hxhalf : Real.pi / 360 < Real.pi / 2 := by nlinarith [Real.pi_pos]
  have hneg : -(Real.pi / 2) < Real.pi / 360 := by nlinarith [Real.pi_pos]
  have hsin : 0 ≤ Real.sin (Real.pi / 360) :=
    Real.sin_nonneg_of_nonneg_of_le_pi hx0 hxpi
  have hcos : 0 < Real.cos (Real.pi / 360) :=
    Real.cos_pos_of_mem_Ioo ⟨hneg, hxhalf⟩
  have e1 : ((0 : ℝ) - 0) * Real.pi / 180 / 2 = 0 := by ring
  have e2 : ((1 : ℝ) - 0) * Real.pi / 180 / 2 = Real.pi / 360 := by ring
  have e3 : (0 : ℝ) * Real.pi / 180 = 0 := by ring
  simp only [haversineDistance, e1, e2, e3, zero_div, Real.sin_zero,
    Real.cos_zero, mul_zero, zero_mul, zero_add, one_mul]
  have hsq : Real.sin (Real.pi / 360) * Real.sin (Real.pi / 360) =
      Real.sin (Real.pi / 360) ^ 2 := by ring
  have hcsq : 1 - Real.sin (Real.pi / 360) ^ 2 = Real.cos (Real.pi / 360) ^ 2 := by
    have := Real.sin_sq_add_cos_sq (Real.pi / 360)
    linarith
  rw [hsq, hcsq, Real.sqrt_sq hsin, Real.sqrt_sq hcos.le]
  rw [atan2, if_pos hcos, ← Real.tan_eq_sin_div_cos, Real.arctan_tan hneg hxhalf]

/-- The equatorial one-degree haversine distance is within 0.5 percent of
111,320 meters. -/
theorem haversineDistance_equator_bound :
    |haversineDistance ⟨0, 0, 0, none⟩ ⟨0, 1, 0, none⟩ - 111320| ≤
      0.5 / 100 * 111320 := by
  rw [haversineDistance_equator, abs_le]
  have h1 := Real.pi_gt_d2
  have h2 := Real.pi_lt_d2
  norm_num at h1 h2 ⊢
  constructor <;> nlinarith

/-- C7: the track distance is the sum of pairwise haversine distances over
consecutive fixes (Earth radius 6,371,000 m); the haversine distance of two
fixes at identical coordinates is `0`; and two equatorial fixes one degree
of longitude apart are 111,320 m apart to within 0.5 percent. -/
theorem distance_pairwise_haversine (pts : List GPSPoint) (p q : GPSPoint)
    (hlat : p.latitude = q.latitude) (hlng : p.longitude = q.longitude) :
    calculateTotalDistance pts =
      ((pts.zip pts.tail).map (fun pq => haversineDistance pq.1 pq.2)).sum ∧
    haversineDistance p q = 0 ∧
    |haversineDistance ⟨0, 0, 0, none⟩ ⟨0, 1, 0, none⟩ - 111320| ≤
      0.5 / 100 * 111320 := by
  refine ⟨?_, haversineDistance_self p q hlat hlng, haversineDistance_equator_bound⟩
  match pts with
  | [] => rfl
  | [r] => rfl
  | r :: s :: l =>
    rw [show calculateTotalDistance (r :: s :: l) = sumPairwise (r :: s :: l) by
      unfold calculateTotalDistance
      rw [if_neg (by simp)]]
    exact sumPairwise_eq_zip_sum _

/-- Witness for C7 at a coincident pair of fixes. -/
theorem distance_pairwise_haversine_witness :
    (⟨2, 5, 0, none⟩ : GPSPoint).latitude = (⟨2, 5, 9, none⟩ : GPSPoint).latitude ∧
    haversineDistance ⟨2, 5, 0, none⟩ ⟨2, 5, 9, none⟩ = 0 :=
  ⟨rfl, (distance_pairwise_haversine [] ⟨2, 5, 0, none⟩ ⟨2, 5, 9, none⟩ rfl rfl).2.1⟩
